import Mathlib

/-!
Verification development for the flux-mcp repository (src/flux_mcp/config.py,
generator.py, server.py, cli.py).

The embedding models the resource-lifecycle manager (FluxGenerator), its
configuration object, the CLI dimension validator and the MCP server's tool
dispatcher as pure Lean functions over explicit state.  Wall-clock time is an
explicit `Time` parameter (seconds, as an integer), the entropy consumed by
torch.randint is an explicit natural-number parameter, and the external
inference engine (diffusers / torch) is a record of outcome flags, since it is
a black box from the manager's point of view.  Python exceptions are modelled
with an explicit result type; the non-reentrant threading.Lock is modelled by
a boolean field together with a distinguished `deadlock` outcome for an
acquire attempt on a lock that is already held.
-/

namespace FluxMcp

/-- Wall-clock time in seconds. -/
abbrev Time := Int

/-- Python exceptions that the modelled code can raise. -/
inductive PyError where
  | attributeError (msg : String)
  | valueError (msg : String)
  | keyError (key : String)
  | engineError (msg : String)
  | badParameter (msg : String)
  deriving DecidableEq

/-- Result of running a piece of Python code over state `σ`: normal return,
a propagated exception (state as of the raise), or blocking forever on the
non-reentrant lock. -/
inductive PyResult (σ : Type) (α : Type) where
  | ok (a : α) (s : σ)
  | exn (e : PyError) (s : σ)
  | deadlock
  deriving DecidableEq

/-- Whether the result is a normal return. -/
def PyResult.isOk {σ α : Type} : PyResult σ α → Bool
  | .ok _ _ => true
  | _ => false

/-- Whether the result is a propagated exception. -/
def PyResult.isExn {σ α : Type} : PyResult σ α → Bool
  | .exn _ _ => true
  | _ => false

/-- Configuration object, from Config.__init__ in config.py: the fields
assigned there are unload_timeout, output_dir, model_cache, model_id, models,
default_steps and default_guidance (the float default_guidance is modelled as
a rational; no arithmetic is performed on it). -/
structure Config where
  unload_timeout : Int
  output_dir : String
  model_cache : Option String
  model_id : String
  models : List (String × String)
  default_steps : Int
  default_guidance : Rat
  deriving DecidableEq

/-- The configuration produced by Config() with no environment overrides
(config.py lines 15-46). -/
def defaultConfig : Config where
  unload_timeout := 300
  output_dir := "~/flux_output"
  model_cache := none
  model_id := "black-forest-labs/FLUX.2-dev"
  models := [("flux1-dev", "black-forest-labs/FLUX.1-dev"),
             ("flux2-dev", "black-forest-labs/FLUX.2-dev")]
  default_steps := 50
  default_guidance := mkRat 15 2

/-- Config.update_timeout (config.py lines 48-56): raises ValueError on a
negative argument, leaving the stored timeout unchanged (the assignment is
after the raise); otherwise stores the new value. -/
def Config.update_timeout (c : Config) (timeout_seconds : Int) :
    Config × Except PyError Unit :=
  if timeout_seconds < 0 then
    (c, .error (.valueError "Timeout must be non-negative"))
  else
    ({ c with unload_timeout := timeout_seconds }, .ok ())

/-- Python attribute lookup for config.model_defaults.  Config.__init__
assigns exactly the seven fields of `Config` above and no other code in the
repository assigns attributes to the config object, so the model_defaults
attribute dereferenced in FluxGenerator.generate (generator.py line 220) does
not exist and the lookup raises AttributeError.  The value type here (variant
identifier to steps and guidance defaults) is the shape the subsequent .get
calls in generate expect for the mapping. -/
def config_model_defaults : Option (List (String × Int × Rat)) := none

/-- State of a FluxGenerator instance (generator.py __init__): whether a
pipeline object is resident (tagged with the model id it was built from),
the auto-unload flag, the configured model id, the id of the currently
loaded model, the last-access timestamp, the pending unload timer (its
scheduled delay in seconds), and whether self._lock is currently held. -/
structure GenState where
  pipeline : Option String
  auto_unload : Bool
  model_id : String
  current_model_id : Option String
  last_access : Option Time
  unload_timer : Option Int
  lock_held : Bool
  deriving DecidableEq

/-- FluxGenerator.__init__ (generator.py lines 27-43). -/
def FluxGenerator.init (cfg : Config) (auto_unload : Bool)
    (model_id : Option String) : GenState :=
  { pipeline := none
    auto_unload := auto_unload
    model_id := model_id.getD cfg.model_id
    current_model_id := none
    last_access := none
    unload_timer := none
    lock_held := false }

/-- Black-box view of the external inference engine: CUDA availability, total
VRAM, and whether its three kinds of invocation (Flux2Pipeline.from_pretrained,
device placement, synthesis) succeed. -/
structure Engine where
  cuda_available : Bool
  total_vram_gb : Rat
  load_ok : String → Bool
  place_ok : Bool
  infer_ok : Bool

/-- Device-placement modes of generator.py lines 90-100. -/
inductive PlacementMode where
  | fullGpu
  | modelCpuOffload
  | sequentialCpuOffload
  | cpuOnly
  deriving DecidableEq

/-- Placement decision of generator.py lines 81-100: full GPU at 24GB+ VRAM,
model CPU offload at 20GB+, sequential CPU offload otherwise; no placement
when CUDA is unavailable. -/
def placement_mode (eng : Engine) : PlacementMode :=
  if eng.cuda_available = false then .cpuOnly
  else if 24 ≤ eng.total_vram_gb then .fullGpu
  else if 20 ≤ eng.total_vram_gb then .modelCpuOffload
  else .sequentialCpuOffload

/-- FluxGenerator.unload_model (generator.py lines 151-179): acquires the
non-reentrant lock (so it blocks forever if the caller already holds it),
cancels any pending timer, and if a pipeline is resident clears pipeline,
current_model_id and last_access.  The lock is released on exit. -/
def unload_model (s : GenState) : PyResult GenState Unit :=
  if s.lock_held then .deadlock
  else
    let s1 : GenState := { s with lock_held := true, unload_timer := none }
    if s1.pipeline = none then
      .ok () { s1 with lock_held := false }
    else
      .ok () { s1 with pipeline := none, current_model_id := none,
                       last_access := none, lock_held := false }

/-- The fresh-load part of FluxGenerator._load_model (generator.py lines
62-123): from_pretrained either raises (pipeline stays as it was) or produces
a resident pipeline; current_model_id is then set; if CUDA is available the
placement call chosen by `placement_mode` runs and may raise, with the
pipeline left resident; the memory-efficient-attention step is wrapped in
try/except in the source and never propagates; finally last_access is set. -/
def load_fresh (eng : Engine) (now : Time) (s : GenState) (target : String) :
    PyResult GenState Unit :=
  if eng.load_ok target = false then
    .exn (.engineError "from_pretrained failed") s
  else
    let s1 : GenState := { s with pipeline := some target,
                                  current_model_id := some target }
    if eng.cuda_available = true ∧ eng.place_ok = false then
      .exn (.engineError "device placement failed") s1
    else
      .ok () { s1 with last_access := some now }

/-- FluxGenerator._load_model (generator.py lines 45-123): the target model
is model_id or self.model_id; if a pipeline is resident under a different
model id, call unload_model first (which acquires the lock) and then load
fresh; if the same model is resident, return without doing anything;
otherwise load fresh. -/
def load_model (eng : Engine) (now : Time) (s : GenState)
    (model_id : Option String) : PyResult GenState Unit :=
  if s.pipeline ≠ none ∧ s.current_model_id ≠ some (model_id.getD s.model_id) then
    match unload_model s with
    | .deadlock => .deadlock
    | .exn e s1 => .exn e s1
    | .ok _ s1 => load_fresh eng now s1 (model_id.getD s.model_id)
  else if s.pipeline ≠ none then
    .ok () s
  else
    load_fresh eng now s (model_id.getD s.model_id)

/-- FluxGenerator._schedule_unload (generator.py lines 125-144): no-op when
auto-unload is disabled; otherwise cancels any existing timer and schedules a
new one only when the configured timeout is positive. -/
def schedule_unload (cfg : Config) (s : GenState) : GenState :=
  if s.auto_unload = false then s
  else
    let s1 : GenState := { s with unload_timer := none }
    if cfg.unload_timeout ≤ 0 then s1
    else { s1 with unload_timer := some cfg.unload_timeout }

/-- torch.randint(lo, hi, (1,)).item(): a uniformly distributed integer in
the half-open interval from lo (inclusive) to hi (exclusive), here as a
function of the raw entropy `r` consumed by the draw. -/
def torch_randint (lo hi : Nat) (r : Nat) : Nat := lo + r % (hi - lo)

/-- Seed resolution of generator.py lines 227-228: an explicit seed is used
as given, otherwise torch.randint(0, 2**32 - 1, (1,)).item() is drawn. -/
def resolve_seed (seed : Option Nat) (r : Nat) : Nat :=
  seed.getD (torch_randint 0 (2 ^ 32 - 1) r)

/-- Resolved generation settings as returned by generate
(generator.py lines 297-304). -/
structure Settings where
  prompt : String
  steps : Int
  guidance_scale : Rat
  width : Int
  height : Int
  deriving DecidableEq

/-- The parts of generate's return tuple that the claims inspect: the output
path, the seed used and the resolved settings. -/
structure GenOutput where
  output_path : String
  seed_used : Nat
  settings : Settings
  deriving DecidableEq

/-- Per-variant defaults lookup of generator.py line 220:
config.model_defaults.get(self._current_model_id, empty dict), followed by
.get of the steps or guidance entry. -/
def lookup_defaults (md : List (String × Int × Rat)) (k : Option String) :
    Option (Int × Rat) :=
  match k with
  | none => none
  | some key => (md.find? (fun p => p.1 == key)).map (fun p => p.2)

/-- Generation-session body of generator.py lines 220-306, parameterised by
the value `md` the config.model_defaults lookup would have produced: resolve
steps and guidance from the request, else the per-variant defaults, else the
global config defaults; resolve the seed; invoke the pipeline (which may
raise); embed metadata, save the image to a timestamp-and-seed file name,
schedule auto-unload and return the output tuple.  The lock, held by
generate, is released on exit. -/
def generate_session (cfg : Config) (eng : Engine) (now : Time) (rand : Nat)
    (md : List (String × Int × Rat)) (s : GenState) (prompt : String)
    (steps : Option Int) (guidance_scale : Option Rat)
    (width height : Int) (seed : Option Nat) : PyResult GenState GenOutput :=
  let defaults := lookup_defaults md s.current_model_id
  let steps1 : Int := steps.getD ((defaults.map Prod.fst).getD cfg.default_steps)
  let guidance1 : Rat :=
    guidance_scale.getD ((defaults.map Prod.snd).getD cfg.default_guidance)
  let seed1 : Nat := resolve_seed seed rand
  if eng.infer_ok = false then
    .exn (.engineError "synthesis failed") { s with lock_held := false }
  else
    let path := cfg.output_dir ++ "/" ++ toString now ++ "_" ++
      toString seed1 ++ ".png"
    let s2 := schedule_unload cfg s
    .ok { output_path := path
          seed_used := seed1
          settings := { prompt := prompt, steps := steps1,
                        guidance_scale := guidance1,
                        width := width, height := height } }
       { s2 with lock_held := false }

/-- Model-preset resolution of generator.py lines 209-211: a truthy model
argument is looked up in config.models, falling back to the argument itself;
a falsy one leaves model_id as None. -/
def resolve_model (cfg : Config) (model : Option String) : Option String :=
  match model with
  | some m =>
    if m = "" then none
    else some (((cfg.models.find? (fun p => p.1 == m)).map Prod.snd).getD m)
  | none => none

/-- Continuation of generate after _load_model returned (generator.py lines
216-306): update last_access to now, then dereference config.model_defaults
(which raises AttributeError, since Config defines no such attribute) and,
were the attribute present, run the generation session on its value.  An
exception exits the with-block, releasing the lock. -/
def generate_after_load (cfg : Config) (eng : Engine) (now : Time)
    (rand : Nat) (s2 : GenState) (prompt : String) (steps : Option Int)
    (guidance_scale : Option Rat) (width height : Int) (seed : Option Nat) :
    PyResult GenState GenOutput :=
  match config_model_defaults with
  | none =>
    .exn (.attributeError
        "\x27Config\x27 object has no attribute \x27model_defaults\x27")
      { s2 with last_access := some now, lock_held := false }
  | some md =>
    generate_session cfg eng now rand md { s2 with last_access := some now }
      prompt steps guidance_scale width height seed

/-- FluxGenerator.generate (generator.py lines 181-306): acquire the
non-reentrant lock; resolve the model preset; load or switch the model via
_load_model; then run the continuation above. -/
def generate (eng : Engine) (cfg : Config) (now : Time) (rand : Nat)
    (s : GenState) (prompt : String) (steps : Option Int)
    (guidance_scale : Option Rat) (width height : Int) (seed : Option Nat)
    (model : Option String) : PyResult GenState GenOutput :=
  if s.lock_held then .deadlock
  else
    match load_model eng now { s with lock_held := true }
        (resolve_model cfg model) with
    | .deadlock => .deadlock
    | .exn e s2 => .exn e { s2 with lock_held := false }
    | .ok _ s2 =>
      generate_after_load cfg eng now rand s2 prompt steps guidance_scale
        width height seed

/-- Status dictionary of FluxGenerator.get_status (generator.py lines
334-341); the VRAM figures come from the engine's introspection interface
and carry no lifecycle information, so they are not modelled. -/
structure StatusOut where
  model_loaded : Bool
  current_model : Option String
  time_until_unload : Option Int
  timeout_seconds : Int
  last_access : Option Time
  deriving DecidableEq

/-- FluxGenerator.get_status (generator.py lines 308-341): under the lock,
report whether a pipeline is resident and, when one is resident and a last
access is recorded, the remaining time max(0, unload_timeout - elapsed). -/
def get_status (cfg : Config) (now : Time) (s : GenState) :
    PyResult GenState StatusOut :=
  if s.lock_held then .deadlock
  else
    let ttu : Option Int :=
      match s.pipeline, s.last_access with
      | some _, some t => some (max 0 (cfg.unload_timeout - (now - t)))
      | _, _ => none
    .ok { model_loaded := s.pipeline.isSome
          current_model := s.current_model_id
          time_until_unload := ttu
          timeout_seconds := cfg.unload_timeout
          last_access := s.last_access } s

/-- validate_dimensions from cli.py lines 26-32: a click callback that
rejects values that are not multiples of 8 or lie outside 256..2048. -/
def validate_dimensions (value : Int) : Except PyError Int :=
  if value % 8 ≠ 0 then .error (.badParameter "must be a multiple of 8")
  else if value < 256 ∨ 2048 < value then
    .error (.badParameter "must be between 256 and 2048")
  else .ok value

/-- Content items returned by the MCP tool handler (TextContent and
ImageContent from server.py). -/
inductive Content where
  | text (s : String)
  | image (data : String)
  deriving DecidableEq

/-- The arguments dictionary of a tool call; a `none` field models an absent
key, so that subscript access on it raises KeyError while .get returns the
supplied default. -/
structure Arguments where
  prompt : Option String
  model : Option String
  steps : Option Int
  guidance_scale : Option Rat
  width : Option Int
  height : Option Int
  seed : Option Nat
  timeout_seconds : Option Int
  deriving DecidableEq

/-- Python str(e) for the modelled exceptions, as interpolated by the
handler's top-level except clause. -/
def PyError.str : PyError → String
  | .attributeError m => m
  | .valueError m => m
  | .keyError k => "\x27" ++ k ++ "\x27"
  | .engineError m => m
  | .badParameter m => m

/-- Python str.strip(): remove leading and trailing whitespace. -/
def py_strip (s : String) : String :=
  ⟨((s.data.dropWhile Char.isWhitespace).reverse.dropWhile
      Char.isWhitespace).reverse⟩

/-- Parameter validation of the generate_image branch (server.py lines
138-150): empty prompt, steps outside 1..100, or width/height outside
256..2048 produce an error text; divisibility by 8 is not checked here. -/
def server_validation (prompt : String) (steps width height : Int) :
    Option String :=
  if py_strip prompt = "" then some "Error: Prompt cannot be empty"
  else if steps < 1 ∨ 100 < steps then
    some "Error: Steps must be between 1 and 100"
  else if width < 256 ∨ 2048 < width ∨ height < 256 ∨ 2048 < height then
    some "Error: Width and height must be between 256 and 2048"
  else none

/-- Status message assembled by the get_status branch (server.py lines
245-278), condensed to its loaded / not-loaded alternatives without the
multi-line decoration. -/
def format_status (st : StatusOut) : String :=
  if st.model_loaded then
    "FLUX Model Status: LOADED, current model " ++ st.current_model.getD "None"
  else
    "FLUX Model Status: NOT LOADED"

/-- Body of the call_tool handler inside its try-block (server.py lines
127-300): dispatch on the tool name; missing required arguments raise
KeyError; validation failures return error texts directly; the generator,
status and timeout operations run against the shared generator state and
global config. -/
def call_tool_body (eng : Engine) (now : Time) (rand : Nat) (s : GenState)
    (cfg : Config) (name : String) (args : Arguments) :
    PyResult (GenState × Config) (List Content) :=
  if name = "generate_image" then
    match args.prompt with
    | none => .exn (.keyError "prompt") (s, cfg)
    | some prompt =>
      let model := args.model.getD "flux2-dev"
      let steps := args.steps.getD 50
      let guidance_scale := args.guidance_scale.getD (mkRat 15 2)
      let width := args.width.getD 1024
      let height := args.height.getD 1024
      let seed := args.seed
      match server_validation prompt steps width height with
      | some msg => .ok [Content.text msg] (s, cfg)
      | none =>
        match generate eng cfg now rand s prompt (some steps)
            (some guidance_scale) width height seed (some model) with
        | .deadlock => .deadlock
        | .exn e s2 => .exn e (s2, cfg)
        | .ok out s2 =>
          .ok [Content.text ("Image generated successfully at " ++
                  out.output_path ++ " with seed " ++ toString out.seed_used),
               Content.image ("thumbnail of " ++ out.output_path)] (s2, cfg)
  else if name = "unload_model" then
    match unload_model s with
    | .deadlock => .deadlock
    | .exn e s2 => .exn e (s2, cfg)
    | .ok _ s2 =>
      .ok [Content.text "FLUX model unloaded successfully. GPU memory freed."]
        (s2, cfg)
  else if name = "get_status" then
    match get_status cfg now s with
    | .deadlock => .deadlock
    | .exn e s2 => .exn e (s2, cfg)
    | .ok st s2 => .ok [Content.text (format_status st)] (s2, cfg)
  else if name = "set_timeout" then
    match args.timeout_seconds with
    | none => .exn (.keyError "timeout_seconds") (s, cfg)
    | some t =>
      if t < 0 then
        .ok [Content.text "Error: Timeout must be non-negative (0 to disable)"]
          (s, cfg)
      else
        let r := cfg.update_timeout t
        match r.2 with
        | .error e => .exn e (s, r.1)
        | .ok _ =>
          if t = 0 then
            .ok [Content.text
                "Auto-unload disabled. Model will stay loaded until manually unloaded."]
              (s, r.1)
          else
            .ok [Content.text ("Auto-unload timeout set to " ++ toString t ++
                " seconds.")] (s, r.1)
  else
    .ok [Content.text ("Error: Unknown tool \x27" ++ name ++ "\x27")] (s, cfg)

/-- The call_tool handler (server.py lines 124-304): the body runs inside a
try-block whose except clause converts any exception into a single
TextContent whose text is Error followed by str(e).  A deadlock inside the
body is not an exception and is not converted. -/
def call_tool (eng : Engine) (now : Time) (rand : Nat) (s : GenState)
    (cfg : Config) (name : String) (args : Arguments) :
    PyResult (GenState × Config) (List Content) :=
  match call_tool_body eng now rand s cfg name args with
  | .ok cs st => .ok cs st
  | .exn e st => .ok [Content.text ("Error: " ++ e.str)] st
  | .deadlock => .deadlock

/-!
Interleaving model for the mutual-exclusion claim.  Each thread runs one
manager operation (a generate call, an explicit unload, or the timer
thread's auto-unload callback): it acquires self._lock on entry, performs
its engine invocations (model load, unload bookkeeping, synthesis) while
holding the lock, and releases the lock on exit.  A thread's control
location abstracts this: idle, waiting to acquire, inside the critical
section, or inside the critical section with an engine invocation in
flight.  A scheduler step picks one thread and advances it when its guard
holds; acquiring requires the lock to be free, exactly as the blocking
acquire of threading.Lock. -/

/-- Control location of one thread through a lock-protected manager
operation. -/
inductive Loc where
  | idle
  | waiting
  | crit
  | engine
  deriving DecidableEq

/-- Global state of the interleaving model: the lock owner (none when the
lock is free) and the control location of each thread. -/
structure MSys where
  owner : Option Nat
  locs : List Loc
  deriving DecidableEq

/-- Scheduler actions: thread i starts an operation, acquires the lock,
begins an engine invocation, ends it, or releases the lock. -/
inductive Act where
  | start (i : Nat)
  | acquire (i : Nat)
  | beginEngine (i : Nat)
  | endEngine (i : Nat)
  | release (i : Nat)
  deriving DecidableEq

/-- One scheduler step; none when the chosen action is not enabled. -/
def mstep (s : MSys) (a : Act) : Option MSys :=
  match a with
  | .start i =>
    if s.locs.getD i .idle = .idle then
      some { s with locs := s.locs.set i .waiting }
    else none
  | .acquire i =>
    if s.owner = none ∧ s.locs.getD i .idle = .waiting then
      some { owner := some i, locs := s.locs.set i .crit }
    else none
  | .beginEngine i =>
    if s.locs.getD i .idle = .crit then
      some { s with locs := s.locs.set i .engine }
    else none
  | .endEngine i =>
    if s.locs.getD i .idle = .engine then
      some { s with locs := s.locs.set i .crit }
    else none
  | .release i =>
    if s.locs.getD i .idle = .crit then
      some { owner := none, locs := s.locs.set i .idle }
    else none

/-- Run a list of scheduler actions from a state; none if any action is not
enabled at its turn. -/
def mrun (s : MSys) : List Act → Option MSys
  | [] => some s
  | a :: as =>
    match mstep s a with
    | none => none
    | some s1 => mrun s1 as

/-- Initial state: the lock is free and n threads are idle. -/
def minit (n : Nat) : MSys :=
  { owner := none, locs := List.replicate n .idle }

/-- Whether a control location holds the lock. -/
def holds_lock : Loc → Bool
  | .crit => true
  | .engine => true
  | _ => false

/-- Lock-ownership invariant: any thread whose location holds the lock is
the recorded owner. -/
def MInv (s : MSys) : Prop :=
  ∀ i : Nat, holds_lock (s.locs.getD i .idle) = true → s.owner = some i

/-- Full id of the FLUX.1-dev model. -/
def flux1 : String := "black-forest-labs/FLUX.1-dev"

/-- Full id of the FLUX.2-dev model. -/
def flux2 : String := "black-forest-labs/FLUX.2-dev"

/-- An engine without CUDA whose loads and synthesis succeed. -/
def engOk : Engine :=
  { cuda_available := false, total_vram_gb := 0, load_ok := fun _ => true,
    place_ok := true, infer_ok := true }

/-- An engine with CUDA whose from_pretrained succeeds but whose device
placement raises (for example CUDA out of memory while moving weights). -/
def engPlaceFail : Engine :=
  { cuda_available := true, total_vram_gb := 24, load_ok := fun _ => true,
    place_ok := false, infer_ok := true }

/-- Generator state with FLUX.1-dev resident, as left by a generate call
that requested the flux1-dev preset (the call loaded the model, stamped
last_access and then raised on the missing config.model_defaults before
reaching the timer-arming line, so no timer is pending). -/
def stateFlux1Loaded : GenState :=
  { pipeline := some flux1, auto_unload := true, model_id := flux2,
    current_model_id := some flux1, last_access := some 100,
    unload_timer := none, lock_held := false }

/-- Generator state after a default generate call against engOk at time 100:
FLUX.2-dev resident, last_access stamped, no timer, lock released. -/
def stateFlux2AfterError : GenState :=
  { pipeline := some flux2, auto_unload := true, model_id := flux2,
    current_model_id := some flux2, last_access := some 100,
    unload_timer := none, lock_held := false }

/-- Generator state after from_pretrained succeeded and device placement
raised, starting from a fresh generator: the pipeline object stays resident
and current_model_id keeps the new variant; last_access was never stamped. -/
def statePlacementFailed : GenState :=
  { pipeline := some flux2, auto_unload := true, model_id := flux2,
    current_model_id := some flux2, last_access := none,
    unload_timer := none, lock_held := false }

/-- Tool-call arguments with every key absent. -/
def argsEmpty : Arguments :=
  { prompt := none, model := none, steps := none, guidance_scale := none,
    width := none, height := none, seed := none, timeout_seconds := none }

/-- Arguments of a generate_image call with width 1024 and height 1023. -/
def argsHeight1023 : Arguments :=
  { prompt := some "x", model := none, steps := none, guidance_scale := none,
    width := some 1024, height := some 1023, seed := none,
    timeout_seconds := none }

/-- Arguments of a generate_image call requesting the flux2-dev preset. -/
def argsSwitchToFlux2 : Arguments :=
  { prompt := some "x", model := some "flux2-dev", steps := none,
    guidance_scale := none, width := none, height := none, seed := none,
    timeout_seconds := none }

/-- Reading an updated list at any position, with the default, in one
conditional. -/
theorem list_getD_set {α : Type} (l : List α) (i j : Nat) (v d : α) :
    (l.set i v).getD j d = if j = i ∧ i < l.length then v else l.getD j d := by
  by_cases hij : j = i
  · subst hij
    by_cases hlen : j < l.length
    · simp [List.getD_eq_getElem?_getD, List.getElem?_set_self, hlen]
    · simp [List.set_eq_of_length_le (Nat.le_of_not_lt hlen), hlen]
  · have hne : i ≠ j := fun hh => hij hh.symm
    simp [List.getD_eq_getElem?_getD, List.getElem?_set_ne hne, hij]

/-- Reading past the end of the list gives the default. -/
theorem list_getD_of_length_le {α : Type} (l : List α) (i : Nat) (d : α)
    (h : l.length ≤ i) : l.getD i d = d := by
  simp [List.getD_eq_getElem?_getD, List.getElem?_eq_none h]

/-- A location that holds the lock forces the thread index in range: out of
range reads give the idle default, which does not hold the lock. -/
theorem holds_lock_in_range {s : MSys} {i : Nat}
    (h : holds_lock (s.locs.getD i .idle) = true) : i < s.locs.length := by
  by_contra hlt
  rw [list_getD_of_length_le s.locs i .idle (Nat.le_of_not_lt hlt)] at h
  simp [holds_lock] at h

/-- Every enabled scheduler step preserves the lock-ownership invariant. -/
theorem minv_step {s s1 : MSys} {a : Act} (hInv : MInv s)
    (h : mstep s a = some s1) : MInv s1 := by
  cases a with
  | start i =>
    simp only [mstep] at h
    split at h
    · rename_i hg
      injection h with h
      subst h
      intro j hj
      rw [list_getD_set] at hj
      split at hj
      · simp [holds_lock] at hj
      · exact hInv j hj
    · exact absurd h (by simp)
  | acquire i =>
    simp only [mstep] at h
    split at h
    · rename_i hg
      injection h with h
      subst h
      intro j hj
      simp only [list_getD_set] at hj
      split at hj
      · rename_i hcond
        simp [hcond.1]
      · have := hInv j hj
        rw [hg.1] at this
        exact absurd this (by simp)
    · exact absurd h (by simp)
  | beginEngine i =>
    simp only [mstep] at h
    split at h
    · rename_i hg
      injection h with h
      subst h
      have hown : s.owner = some i := hInv i (by rw [hg]; rfl)
      intro j hj
      simp only [list_getD_set] at hj
      split at hj
      · rename_i hcond
        simp only [hown, hcond.1]
      · exact hInv j hj
    · exact absurd h (by simp)
  | endEngine i =>
    simp only [mstep] at h
    split at h
    · rename_i hg
      injection h with h
      subst h
      have hown : s.owner = some i := hInv i (by rw [hg]; rfl)
      intro j hj
      simp only [list_getD_set] at hj
      split at hj
      · rename_i hcond
        simp only [hown, hcond.1]
      · exact hInv j hj
    · exact absurd h (by simp)
  | release i =>
    simp only [mstep] at h
    split at h
    · rename_i hg
      injection h with h
      subst h
      have hown : s.owner = some i := hInv i (by rw [hg]; rfl)
      have hrange : i < s.locs.length :=
        holds_lock_in_range (s := s) (i := i) (by rw [hg]; rfl)
      intro j hj
      simp only [list_getD_set] at hj
      split at hj
      · simp [holds_lock] at hj
      · rename_i hcond
        have hj2 := hInv j hj
        rw [hown] at hj2
        injection hj2 with hij
        exact absurd ⟨hij.symm, hrange⟩ hcond
    · exact absurd h (by simp)

/-- Running any enabled action list preserves the invariant. -/
theorem minv_run {acts : List Act} :
    ∀ {s s1 : MSys}, MInv s → mrun s acts = some s1 → MInv s1 := by
  induction acts with
  | nil =>
    intro s s1 hInv h
    simp only [mrun] at h
    injection h with h
    exact h ▸ hInv
  | cons a as ih =>
    intro s s1 hInv h
    simp only [mrun] at h
    cases hs : mstep s a with
    | none => rw [hs] at h; exact absurd h (by simp)
    | some s2 =>
      rw [hs] at h
      exact ih (minv_step hInv hs) h

/-- The initial state satisfies the invariant. -/
theorem minv_init (n : Nat) : MInv (minit n) := by
  intro i hi
  simp only [minit] at hi
  by_cases hlt : i < n
  · rw [show (List.replicate n Loc.idle).getD i .idle = .idle by
      simp [List.getD_eq_getElem?_getD, List.getElem?_replicate, hlt]] at hi
    simp [holds_lock] at hi
  · rw [list_getD_of_length_le (List.replicate n Loc.idle) i Loc.idle
      (by simpa using Nat.le_of_not_lt hlt)] at hi
    simp [holds_lock] at hi

/-- unload_model called while the lock is already held blocks forever. -/
theorem unload_model_of_lock {s : GenState} (hl : s.lock_held = true) :
    unload_model s = .deadlock := by
  unfold unload_model
  rw [hl]
  rfl

/-- unload_model never raises. -/
theorem unload_model_isExn_false (s : GenState) :
    (unload_model s).isExn = false := by
  unfold unload_model
  split
  · rfl
  · dsimp only
    split
    · rfl
    · rfl

/-- A returning unload_model implies the lock was free and yields either the
timer-cleared state (nothing was resident) or the fully cleared state. -/
theorem unload_model_ok_cases {s : GenState} {u : Unit} {s1 : GenState}
    (h : unload_model s = .ok u s1) :
    s.lock_held = false ∧
    ((s.pipeline = none ∧
        s1 = { s with unload_timer := none, lock_held := false }) ∨
     (s.pipeline ≠ none ∧ s1 =
        { s with pipeline := none, current_model_id := none,
                 last_access := none, unload_timer := none,
                 lock_held := false })) := by
  unfold unload_model at h
  split at h
  · exact absurd h (by simp)
  · rename_i hl
    dsimp only at h
    refine ⟨by revert hl; cases s.lock_held <;> simp, ?_⟩
    split at h
    · rename_i hp
      left
      injection h with h1 h2
      exact ⟨hp, h2.symm⟩
    · rename_i hp
      right
      injection h with h1 h2
      exact ⟨hp, h2.symm⟩

/-- A returning load_fresh implies from_pretrained succeeded and the state
holds the new pipeline, variant and access time. -/
theorem load_fresh_ok {eng : Engine} {now : Time} {s : GenState}
    {target : String} {u : Unit} {s2 : GenState}
    (h : load_fresh eng now s target = .ok u s2) :
    eng.load_ok target = true ∧
    s2 =
      { s with pipeline := some target, current_model_id := some target,
               last_access := some now } := by
  unfold load_fresh at h
  split at h
  · exact absurd h (by simp)
  · rename_i hload
    dsimp only at h
    refine ⟨by revert hload; cases eng.load_ok target <;> simp, ?_⟩
    split at h
    · exact absurd h (by simp)
    · injection h with h1 h2
      exact h2.symm

/-- A raising load_fresh either failed in from_pretrained, leaving the state
untouched, or failed in device placement, leaving the new pipeline resident. -/
theorem load_fresh_exn_cases {eng : Engine} {now : Time} {s : GenState}
    {target : String} {e : PyError} {s2 : GenState}
    (h : load_fresh eng now s target = .exn e s2) :
    (eng.load_ok target = false ∧
      e = .engineError "from_pretrained failed" ∧ s2 = s) ∨
    (eng.load_ok target = true ∧
      e = .engineError "device placement failed" ∧
      s2 =
        { s with pipeline := some target,
                 current_model_id := some target }) := by
  unfold load_fresh at h
  split at h
  · rename_i hload
    left
    injection h with h1 h2
    exact ⟨hload, h1.symm, h2.symm⟩
  · rename_i hload
    dsimp only at h
    split at h
    · right
      injection h with h1 h2
      exact ⟨by revert hload; cases eng.load_ok target <;> simp, h1.symm, h2.symm⟩
    · exact absurd h (by simp)

/-- With the caller already holding the lock, a raising _load_model leaves
last_access untouched (the switch branch cannot raise, it deadlocks). -/
theorem load_model_exn_last {eng : Engine} {now : Time} {s : GenState}
    {mid : Option String} {e : PyError} {s2 : GenState}
    (hl : s.lock_held = true)
    (h : load_model eng now s mid = .exn e s2) :
    s2.last_access = s.last_access := by
  unfold load_model at h
  split at h
  · rw [unload_model_of_lock hl] at h
    exact absurd h (by simp)
  · split at h
    · exact absurd h (by simp)
    · rcases load_fresh_exn_cases h with ⟨_, _, h2⟩ | ⟨_, _, h2⟩ <;> rw [h2]

/-- Exceptions out of _load_model are engine failures. -/
theorem load_model_exn_engine {eng : Engine} {now : Time} {s : GenState}
    {mid : Option String} {e : PyError} {s2 : GenState}
    (h : load_model eng now s mid = .exn e s2) :
    e = .engineError "from_pretrained failed" ∨
    e = .engineError "device placement failed" := by
  unfold load_model at h
  split at h
  · cases hu : unload_model s with
    | deadlock => rw [hu] at h; exact absurd h (by simp)
    | exn e1 s1 =>
      have := unload_model_isExn_false s
      rw [hu] at this
      exact absurd this (by simp [PyResult.isExn])
    | ok u1 s1 =>
      rw [hu] at h
      dsimp only at h
      rcases load_fresh_exn_cases h with ⟨_, h1, _⟩ | ⟨_, h1, _⟩
      · exact Or.inl h1
      · exact Or.inr h1
  · split at h
    · exact absurd h (by simp)
    · rcases load_fresh_exn_cases h with ⟨_, h1, _⟩ | ⟨_, h1, _⟩
      · exact Or.inl h1
      · exact Or.inr h1

/-- When from_pretrained fails for the target model, a raising _load_model
leaves no pipeline resident. -/
theorem load_model_exn_load_fail {eng : Engine} {now : Time} {s : GenState}
    {mid : Option String} {e : PyError} {s2 : GenState}
    (h : load_model eng now s mid = .exn e s2)
    (hload : eng.load_ok (mid.getD s.model_id) = false) :
    s2.pipeline = none := by
  unfold load_model at h
  split at h
  · cases hu : unload_model s with
    | deadlock => rw [hu] at h; exact absurd h (by simp)
    | exn e1 s1 =>
      have := unload_model_isExn_false s
      rw [hu] at this
      exact absurd this (by simp [PyResult.isExn])
    | ok u1 s1 =>
      rw [hu] at h
      dsimp only at h
      rcases load_fresh_exn_cases h with ⟨_, _, h2⟩ | ⟨hok, _, _⟩
      · rcases unload_model_ok_cases hu with ⟨_, ⟨hp, hs1⟩ | ⟨hp, hs1⟩⟩
        · rw [h2, hs1]
          exact hp
        · rw [h2, hs1]
      · rw [hok] at hload
        exact absurd hload (by simp)
  · rename_i hc1
    split at h
    · exact absurd h (by simp)
    · rename_i hc2
      rcases load_fresh_exn_cases h with ⟨_, _, h2⟩ | ⟨hok, _, _⟩
      · rw [h2]
        revert hc2
        cases s.pipeline <;> simp
      · rw [hok] at hload
        exact absurd hload (by simp)

/-- A returning _load_model leaves a pipeline resident. -/
theorem load_model_ok_pipeline {eng : Engine} {now : Time} {s : GenState}
    {mid : Option String} {u : Unit} {s2 : GenState}
    (h : load_model eng now s mid = .ok u s2) :
    s2.pipeline.isSome = true := by
  unfold load_model at h
  split at h
  · cases hu : unload_model s with
    | deadlock => rw [hu] at h; exact absurd h (by simp)
    | exn e1 s1 =>
      have := unload_model_isExn_false s
      rw [hu] at this
      exact absurd this (by simp [PyResult.isExn])
    | ok u1 s1 =>
      rw [hu] at h
      dsimp only at h
      rcases load_fresh_ok h with ⟨_, h2⟩
      rw [h2]
      rfl
  · rename_i hc1
    split at h
    · rename_i hp
      injection h with h1 h2
      rw [← h2]
      cases hep : s.pipeline with
      | none => exact absurd hep hp
      | some p => rfl
    · rcases load_fresh_ok h with ⟨_, h2⟩
      rw [h2]
      rfl

/-- The continuation of generate after loading always raises the missing
config.model_defaults AttributeError, with last_access stamped and the lock
released. -/
theorem generate_after_load_eq (cfg : Config) (eng : Engine) (now : Time)
    (rand : Nat) (s2 : GenState) (prompt : String) (steps : Option Int)
    (g : Option Rat) (w h : Int) (sd : Option Nat) :
    generate_after_load cfg eng now rand s2 prompt steps g w h sd =
      .exn (.attributeError
          "\x27Config\x27 object has no attribute \x27model_defaults\x27")
        { s2 with last_access := some now, lock_held := false } := rfl

/-- generate never returns normally: every call either deadlocks or raises. -/
theorem generate_isOk_false (eng : Engine) (cfg : Config) (now : Time)
    (rand : Nat) (s : GenState) (prompt : String) (steps : Option Int)
    (g : Option Rat) (w h : Int) (sd : Option Nat) (m : Option String) :
    (generate eng cfg now rand s prompt steps g w h sd m).isOk = false := by
  unfold generate
  split
  · rfl
  · cases hres : load_model eng now { s with lock_held := true }
        (resolve_model cfg m) with
    | deadlock => simp only [hres]; rfl
    | exn e s2 => simp only [hres]; rfl
    | ok u s2 => simp only [hres]; rfl

/-- A raising generate leaves last_access either untouched (load failed) or
stamped with the call time (load succeeded). -/
theorem generate_exn_last {eng : Engine} {cfg : Config} {now : Time}
    {rand : Nat} {s : GenState} {prompt : String} {steps : Option Int}
    {g : Option Rat} {w hh : Int} {sd : Option Nat} {m : Option String}
    {e : PyError} {s2 : GenState}
    (h : generate eng cfg now rand s prompt steps g w hh sd m = .exn e s2) :
    s2.last_access = s.last_access ∨ s2.last_access = some now := by
  unfold generate at h
  split at h
  · exact absurd h (by simp)
  · cases hres : load_model eng now { s with lock_held := true }
        (resolve_model cfg m) with
    | deadlock => rw [hres] at h; exact absurd h (by simp)
    | exn e1 s1 =>
      rw [hres] at h
      dsimp only at h
      injection h with h1 h2
      left
      rw [← h2]
      have hl : ({ s with lock_held := true } : GenState).lock_held = true := rfl
      exact @load_model_exn_last eng now { s with lock_held := true }
        (resolve_model cfg m) e1 s1 hl hres
    | ok u s1 =>
      rw [hres] at h
      dsimp only at h
      rw [generate_after_load_eq] at h
      injection h with h1 h2
      right
      rw [← h2]

/-- When generate raises the AttributeError (the only non-engine failure),
loading had succeeded, so the handle remains loaded. -/
theorem generate_exn_attr_pipeline {eng : Engine} {cfg : Config} {now : Time}
    {rand : Nat} {s : GenState} {prompt : String} {steps : Option Int}
    {g : Option Rat} {w hh : Int} {sd : Option Nat} {m : Option String}
    {msg : String} {s2 : GenState}
    (h : generate eng cfg now rand s prompt steps g w hh sd m =
      .exn (.attributeError msg) s2) :
    s2.pipeline.isSome = true := by
  unfold generate at h
  split at h
  · exact absurd h (by simp)
  · cases hres : load_model eng now { s with lock_held := true }
        (resolve_model cfg m) with
    | deadlock => rw [hres] at h; exact absurd h (by simp)
    | exn e1 s1 =>
      rw [hres] at h
      dsimp only at h
      injection h with h1 h2
      rcases load_model_exn_engine hres with h3 | h3 <;>
        · rw [h3] at h1
          exact absurd h1.symm (by simp)
    | ok u s1 =>
      rw [hres] at h
      dsimp only at h
      rw [generate_after_load_eq] at h
      injection h with h1 h2
      rw [← h2]
      exact @load_model_ok_pipeline eng now { s with lock_held := true }
        (resolve_model cfg m) u s1 hres

/-- A raising generation session (synthesis failure) leaves the residency
fields untouched. -/
theorem generate_session_exn_pipeline {cfg : Config} {eng : Engine}
    {now : Time} {rand : Nat} {md : List (String × Int × Rat)} {s : GenState}
    {prompt : String} {steps : Option Int} {g : Option Rat} {w hh : Int}
    {sd : Option Nat} {e : PyError} {s2 : GenState}
    (h : generate_session cfg eng now rand md s prompt steps g w hh sd =
      .exn e s2) :
    s2.pipeline = s.pipeline ∧ s2.current_model_id = s.current_model_id := by
  unfold generate_session at h
  dsimp only at h
  split at h
  · injection h with h1 h2
    rw [← h2]
    exact ⟨rfl, rfl⟩
  · exact absurd h (by simp)

/-- call_tool never lets an exception escape: the except clause converts it. -/
theorem call_tool_isExn_false (eng : Engine) (now : Time) (rand : Nat)
    (s : GenState) (cfg : Config) (name : String) (args : Arguments) :
    (call_tool eng now rand s cfg name args).isExn = false := by
  unfold call_tool
  split <;> rfl

/-- Every normal return of the handler body is a non-empty content list. -/
theorem call_tool_body_ok_ne_nil {eng : Engine} {now : Time} {rand : Nat}
    {s : GenState} {cfg : Config} {name : String} {args : Arguments}
    {cs : List Content} {st : GenState × Config}
    (h : call_tool_body eng now rand s cfg name args = .ok cs st) :
    cs ≠ [] := by
  unfold call_tool_body at h
  split at h
  · split at h
    · exact absurd h (by simp)
    · dsimp only at h
      split at h
      · injection h with h1 h2
        rw [← h1]
        simp
      · split at h
        · exact absurd h (by simp)
        · exact absurd h (by simp)
        · injection h with h1 h2
          rw [← h1]
          simp
  · split at h
    · split at h
      · exact absurd h (by simp)
      · exact absurd h (by simp)
      · injection h with h1 h2
        rw [← h1]
        simp
    · split at h
      · split at h
        · exact absurd h (by simp)
        · exact absurd h (by simp)
        · injection h with h1 h2
          rw [← h1]
          simp
      · split at h
        · split at h
          · exact absurd h (by simp)
          · rename_i t
            split at h
            · injection h with h1 h2
              rw [← h1]
              simp
            · rename_i ht
              unfold Config.update_timeout at h
              rw [if_neg ht] at h
              dsimp only at h
              split at h
              · injection h with h1 h2
                rw [← h1]
                simp
              · injection h with h1 h2
                rw [← h1]
                simp
        · injection h with h1 h2
          rw [← h1]
          simp

/-- Claim C1 (code bug): instead of performing one unload of variant A
followed by one load of variant B and returning a result, generate on the
variant-switch path deadlocks: it holds the non-reentrant lock and
_load_model calls unload_model, which blocks acquiring that same lock.  With
FLUX.1-dev resident, requesting the flux2-dev preset never returns.  The
idempotent half of the claim does hold: _load_model with the already
resident variant performs no unload and no load and leaves the state
untouched. -/
theorem claim1_switch_path_deadlocks :
    generate engOk defaultConfig 200 0 stateFlux1Loaded "x" none none 1024 1024
        none (some "flux2-dev") = .deadlock ∧
    load_model engOk 200 stateFlux1Loaded (some flux1) =
      .ok () stateFlux1Loaded := by
  constructor
  · decide
  · decide

/-- Claim C2 (code bug): generate can never produce a result with resolved
steps and guidance, because it dereferences config.model_defaults, an
attribute Config.__init__ never assigns: every call that survives loading
raises AttributeError at the defaults-resolution line, and no call returns
normally.  The second conjunct evaluates a default generate call on a fresh
generator: the model loads and then the AttributeError propagates. -/
theorem claim2_defaults_resolution_attribute_error :
    (∀ (eng : Engine) (cfg : Config) (now : Time) (rand : Nat) (s : GenState)
        (prompt : String) (steps : Option Int) (g : Option Rat) (w h : Int)
        (sd : Option Nat) (m : Option String),
        (generate eng cfg now rand s prompt steps g w h sd m).isOk = false) ∧
    generate engOk defaultConfig 100 0
        (FluxGenerator.init defaultConfig true none) "a cat" none none
        1024 1024 none none =
      .exn (.attributeError
          "\x27Config\x27 object has no attribute \x27model_defaults\x27")
        stateFlux2AfterError :=
  ⟨fun eng cfg now rand s prompt steps g w h sd m =>
      generate_isOk_false eng cfg now rand s prompt steps g w h sd m,
   by decide⟩

/-- Claim C3 counterexample: the MCP server accepts width 1024 and height
1023 although 1023 is not a multiple of 8: the call proceeds past validation
into the generator, the inference engine is invoked (the model is loaded,
mutating the manager state to resident with a fresh access time) and the
error the caller sees is the unrelated AttributeError, not the claimed
InvalidParameter rejection. -/
theorem claim3_cex_server_accepts_height_1023 :
    (1023 : Int) % 8 = 7 ∧
    call_tool engOk 100 0 (FluxGenerator.init defaultConfig true none)
        defaultConfig "generate_image" argsHeight1023 =
      .ok [Content.text
          "Error: \x27Config\x27 object has no attribute \x27model_defaults\x27"]
        (stateFlux2AfterError, defaultConfig) := by
  constructor
  · decide
  · decide

/-- Claim C3 as amended: the CLI front end's validate_dimensions accepts a
value exactly when it is a multiple of 8 within 256..2048 (so 1023, 252 and
4096 are rejected and 256 passes), while the MCP server's validation checks
only the range 256..2048 on width and height (besides prompt and steps) and
never divisibility by 8, so width 1024 with height 1023 passes server
validation and reaches the generator. -/
theorem claim3_dimension_validation :
    (∀ v : Int,
        validate_dimensions v = .ok v ↔ v % 8 = 0 ∧ 256 ≤ v ∧ v ≤ 2048) ∧
    validate_dimensions 1023 = .error (.badParameter "must be a multiple of 8") ∧
    validate_dimensions 252 = .error (.badParameter "must be a multiple of 8") ∧
    validate_dimensions 4096 =
      .error (.badParameter "must be between 256 and 2048") ∧
    validate_dimensions 256 = .ok 256 ∧
    (∀ w h : Int, server_validation "x" 50 w h = none ↔
        256 ≤ w ∧ w ≤ 2048 ∧ 256 ≤ h ∧ h ≤ 2048) := by
  refine ⟨?_, by rfl, by rfl, by rfl, by rfl, ?_⟩
  · intro v
    unfold validate_dimensions
    by_cases h8 : v % 8 = 0
    · by_cases hr : v < 256 ∨ 2048 < v
      · rw [if_neg (not_not_intro h8), if_pos hr]
        constructor
        · intro hc
          exact absurd hc (by simp)
        · intro hc
          omega
      · rw [if_neg (not_not_intro h8), if_neg hr]
        constructor
        · intro _
          exact ⟨h8, by omega, by omega⟩
        · intro _
          rfl
    · rw [if_pos h8]
      constructor
      · intro hc
        exact absurd hc (by simp)
      · intro hc
        exact absurd hc.1 h8
  · intro w h
    unfold server_validation
    rw [if_neg (show ¬(py_strip "x" = "") by decide),
        if_neg (show ¬((50 : Int) < 1 ∨ 100 < (50 : Int)) by decide)]
    by_cases hr : w < 256 ∨ 2048 < w ∨ h < 256 ∨ 2048 < h
    · rw [if_pos hr]
      constructor
      · intro hc
        exact absurd hc (by simp)
      · intro hc
        omega
    · rw [if_neg hr]
      constructor
      · intro _
        omega
      · intro _
        rfl

/-- Claim C4 counterexample: with eviction disabled (timeout 0) and a model
loaded, get_status reports a countdown of 0 seconds instead of omitting the
field, contradicting that the countdown is absent when eviction is disabled. -/
theorem claim4_cex_countdown_present_when_disabled :
    get_status { defaultConfig with unload_timeout := 0 } 105 stateFlux1Loaded =
      .ok { model_loaded := true, current_model := some flux1,
            time_until_unload := some 0, timeout_seconds := 0,
            last_access := some 100 } stateFlux1Loaded := by
  decide

/-- Claim C4 as amended: get_status reports max(0, timeout - elapsed)
whenever a model is loaded and an access is recorded, including when
eviction is disabled (where it reports 0), and reports no countdown exactly
when nothing is loaded or no access is recorded; any generate call that
raises and returns leaves last_access at least its prior value (it is
stamped with the call time when loading succeeded, untouched when loading
itself failed); and a status read at the access time of a loaded state
reports the full configured non-negative timeout. -/
theorem claim4_status_countdown :
    (∀ (cfg : Config) (now : Time) (s : GenState) (t : Time) (st : StatusOut)
        (s2 : GenState),
        get_status cfg now s = .ok st s2 → s.pipeline.isSome = true →
        s.last_access = some t →
        st.time_until_unload = some (max 0 (cfg.unload_timeout - (now - t)))) ∧
    (∀ (cfg : Config) (now : Time) (s : GenState) (st : StatusOut)
        (s2 : GenState),
        get_status cfg now s = .ok st s2 →
        (s.pipeline = none ∨ s.last_access = none) →
        st.time_until_unload = none) ∧
    (∀ (eng : Engine) (cfg : Config) (now : Time) (rand : Nat) (s : GenState)
        (prompt : String) (steps : Option Int) (g : Option Rat) (w hh : Int)
        (sd : Option Nat) (m : Option String) (e : PyError) (s2 : GenState)
        (t0 : Time),
        generate eng cfg now rand s prompt steps g w hh sd m = .exn e s2 →
        s.last_access = some t0 → t0 ≤ now →
        ∃ t1, s2.last_access = some t1 ∧ t0 ≤ t1) ∧
    (∀ (cfg : Config) (now : Time) (s : GenState) (st : StatusOut)
        (s2 : GenState),
        0 ≤ cfg.unload_timeout → s.pipeline.isSome = true →
        s.last_access = some now → get_status cfg now s = .ok st s2 →
        st.time_until_unload = some cfg.unload_timeout) := by
  refine ⟨?_, ?_, ?_, ?_⟩
  · intro cfg now s t st s2 hok hsome hla
    unfold get_status at hok
    split at hok
    · exact absurd hok (by simp)
    · injection hok with h1 h2
      rw [← h1]
      dsimp only
      rw [hla]
      cases hp : s.pipeline with
      | none =>
        rw [hp] at hsome
        exact absurd hsome (by simp)
      | some p => rfl
  · intro cfg now s st s2 hok hnone
    unfold get_status at hok
    split at hok
    · exact absurd hok (by simp)
    · injection hok with h1 h2
      rw [← h1]
      dsimp only
      rcases hnone with hp | hla
      · rw [hp]
      · rw [hla]
        cases s.pipeline <;> rfl
  · intro eng cfg now rand s prompt steps g w hh sd m e s2 t0 h hla hle
    rcases generate_exn_last h with h1 | h1
    · exact ⟨t0, by rw [h1, hla], le_refl t0⟩
    · exact ⟨now, h1, hle⟩
  · intro cfg now s st s2 h0 hsome hla hok
    unfold get_status at hok
    split at hok
    · exact absurd hok (by simp)
    · injection hok with h1 h2
      rw [← h1]
      dsimp only
      rw [hla]
      cases hp : s.pipeline with
      | none =>
        rw [hp] at hsome
        exact absurd hsome (by simp)
      | some p =>
        have hmax : max 0 (cfg.unload_timeout - (now - now)) =
            cfg.unload_timeout := by omega
        dsimp only
        rw [hmax]

/-- Witness for claim C4: the first conjunct applied to a loaded state with
timeout 300, last access 100 and current time 105 gives countdown 295. -/
theorem claim4_status_countdown_witness :
    ({ model_loaded := true, current_model := some flux1,
       time_until_unload := some 295, timeout_seconds := 300,
       last_access := some 100 } : StatusOut).time_until_unload =
      some (max 0 (defaultConfig.unload_timeout - (105 - 100))) :=
  claim4_status_countdown.1 defaultConfig 105 stateFlux1Loaded 100
    { model_loaded := true, current_model := some flux1,
      time_until_unload := some 295, timeout_seconds := 300,
      last_access := some 100 } stateFlux1Loaded (by decide) (by decide)
    (by decide)

/-- Claim C5 counterexample: when from_pretrained succeeds and the device
placement raises, the handle is not returned to Unloaded: the pipeline
object stays resident and current_model_id keeps the new variant. -/
theorem claim5_cex_placement_failure_retains_residency :
    load_model engPlaceFail 100 (FluxGenerator.init defaultConfig true none)
        none =
      .exn (.engineError "device placement failed") statePlacementFailed ∧
    statePlacementFailed.pipeline = some flux2 := by
  constructor
  · decide
  · decide

/-- Claim C5 as amended: if the engine raises during model loading itself
(from_pretrained), no pipeline is resident afterwards; if it raises during
the subsequent device placement, the handle remains loaded with the new
variant (partial residency is retained); and if loading succeeded and the
call fails later (the defaults-resolution AttributeError, or synthesis in
the session), the handle remains loaded. -/
theorem claim5_load_failure_states :
    (∀ (eng : Engine) (now : Time) (s : GenState) (mid : Option String)
        (e : PyError) (s2 : GenState),
        load_model eng now s mid = .exn e s2 →
        eng.load_ok (mid.getD s.model_id) = false → s2.pipeline = none) ∧
    (∀ (eng : Engine) (now : Time) (s : GenState) (target : String)
        (e : PyError) (s2 : GenState),
        load_fresh eng now s target = .exn e s2 →
        eng.load_ok target = true →
        s2.pipeline = some target ∧ s2.current_model_id = some target) ∧
    (∀ (eng : Engine) (cfg : Config) (now : Time) (rand : Nat) (s : GenState)
        (prompt : String) (steps : Option Int) (g : Option Rat) (w hh : Int)
        (sd : Option Nat) (m : Option String) (msg : String) (s2 : GenState),
        generate eng cfg now rand s prompt steps g w hh sd m =
          .exn (.attributeError msg) s2 →
        s2.pipeline.isSome = true) ∧
    (∀ (cfg : Config) (eng : Engine) (now : Time) (rand : Nat)
        (md : List (String × Int × Rat)) (s : GenState) (prompt : String)
        (steps : Option Int) (g : Option Rat) (w hh : Int) (sd : Option Nat)
        (e : PyError) (s2 : GenState),
        generate_session cfg eng now rand md s prompt steps g w hh sd =
          .exn e s2 →
        s2.pipeline = s.pipeline ∧
          s2.current_model_id = s.current_model_id) := by
  refine ⟨?_, ?_, ?_, ?_⟩
  · intro eng now s mid e s2 h hload
    exact load_model_exn_load_fail h hload
  · intro eng now s target e s2 h hload
    rcases load_fresh_exn_cases h with ⟨hfail, _, _⟩ | ⟨_, _, h2⟩
    · rw [hload] at hfail
      exact absurd hfail (by simp)
    · rw [h2]
      exact ⟨rfl, rfl⟩
  · intro eng cfg now rand s prompt steps g w hh sd m msg s2 h
    exact generate_exn_attr_pipeline h
  · intro cfg eng now rand md s prompt steps g w hh sd e s2 h
    exact generate_session_exn_pipeline h

/-- Witness for claim C5: the placement-failure conjunct applied to the
concrete failing engine, showing the retained residency. -/
theorem claim5_load_failure_states_witness :
    statePlacementFailed.pipeline = some flux2 ∧
    statePlacementFailed.current_model_id = some flux2 :=
  claim5_load_failure_states.2.1 engPlaceFail 100
    (FluxGenerator.init defaultConfig true none) flux2
    (.engineError "device placement failed") statePlacementFailed
    (by decide) (by decide)

/-- Claim C6: in the interleaving model of generate, unload and the timer
callback, each of which acquires self._lock before its engine invocations
and releases it afterwards, two threads can never both have an engine
invocation in flight in any reachable schedule: the external engine is never
invoked with overlapping lifetimes. -/
theorem claim6_engine_mutual_exclusion (n : Nat) (acts : List Act)
    (sys : MSys) (i j : Nat) (hrun : mrun (minit n) acts = some sys)
    (hi : sys.locs.getD i .idle = .engine)
    (hj : sys.locs.getD j .idle = .engine) : i = j := by
  have hinv := minv_run (minv_init n) hrun
  have h1 := hinv i (by rw [hi]; rfl)
  have h2 := hinv j (by rw [hj]; rfl)
  rw [h1] at h2
  exact Option.some.inj h2

/-- Witness for claim C6: a two-thread schedule in which thread 0 starts,
acquires the lock and begins an engine invocation; the theorem instantiated
at that reachable state. -/
theorem claim6_engine_mutual_exclusion_witness : (0 : Nat) = 0 :=
  claim6_engine_mutual_exclusion 2
    [Act.start 0, Act.acquire 0, Act.beginEngine 0]
    { owner := some 0, locs := [Loc.engine, Loc.idle] } 0 0
    (by decide) (by decide) (by decide)

/-- Claim C7 counterexample: the upper bound of torch.randint is exclusive,
so the drawn seed can never be 2^32 - 1; the claimed range 0 .. 2^32 - 1 is
not attained. -/
theorem claim7_cex_seed_max_unreachable :
    ¬ ∃ r : Nat, resolve_seed none r = 2 ^ 32 - 1 := by
  rintro ⟨r, hr⟩
  have h2 : resolve_seed none r = r % (2 ^ 32 - 1) := by
    unfold resolve_seed torch_randint
    simp
  have h3 : r % (2 ^ 32 - 1) < 2 ^ 32 - 1 :=
    Nat.mod_lt r (by norm_num)
  rw [h2] at hr
  omega

/-- Claim C7 as amended: with no explicit seed the session draws a value
uniformly distributed over 0 .. 2^32 - 2 (every value in that range is
attainable; 2^32 - 1 never is, torch.randint's upper bound being exclusive);
an explicit seed is used exactly; and the seed field of a returned session
result is exactly the resolved seed. -/
theorem claim7_seed_resolution :
    (∀ r : Nat, resolve_seed none r ≤ 2 ^ 32 - 2) ∧
    (∀ v : Nat, v ≤ 2 ^ 32 - 2 → ∃ r : Nat, resolve_seed none r = v) ∧
    (∀ (sd : Nat) (r : Nat), resolve_seed (some sd) r = sd) ∧
    (∀ (cfg : Config) (eng : Engine) (now : Time) (rand : Nat)
        (md : List (String × Int × Rat)) (s : GenState) (prompt : String)
        (steps : Option Int) (g : Option Rat) (w hh : Int) (sd : Option Nat)
        (out : GenOutput) (s2 : GenState),
        generate_session cfg eng now rand md s prompt steps g w hh sd =
          .ok out s2 →
        out.seed_used = resolve_seed sd rand) := by
  refine ⟨?_, ?_, ?_, ?_⟩
  · intro r
    have h2 : resolve_seed none r = r % (2 ^ 32 - 1) := by
      unfold resolve_seed torch_randint
      simp
    have h3 : r % (2 ^ 32 - 1) < 2 ^ 32 - 1 :=
      Nat.mod_lt r (by norm_num)
    omega
  · intro v hv
    refine ⟨v, ?_⟩
    have h2 : resolve_seed none v = v % (2 ^ 32 - 1) := by
      unfold resolve_seed torch_randint
      simp
    rw [h2]
    exact Nat.mod_eq_of_lt (by omega)
  · intro sd r
    rfl
  · intro cfg eng now rand md s prompt steps g w hh sd out s2 h
    unfold generate_session at h
    dsimp only at h
    split at h
    · exact absurd h (by simp)
    · injection h with h1 h2
      rw [← h1]

/-- Witness for claim C7: seed value 5 is attainable. -/
theorem claim7_seed_resolution_witness : ∃ r : Nat, resolve_seed none r = 5 :=
  claim7_seed_resolution.2.1 5 (by norm_num)

/-- Claim C8: update_timeout raises ValueError on every negative input and
leaves the stored timeout unchanged; update_timeout 0 succeeds and stores 0;
and with auto-unload enabled, a rearm under a timeout of at most 0 (in
particular under the configuration just updated to 0) schedules no timer. -/
theorem claim8_timeout_update :
    (∀ (c : Config) (t : Int), t < 0 →
        c.update_timeout t =
          (c, .error (.valueError "Timeout must be non-negative"))) ∧
    (∀ c : Config, (c.update_timeout 0).2 = .ok () ∧
        ((c.update_timeout 0).1).unload_timeout = 0) ∧
    (∀ (c : Config) (s : GenState), s.auto_unload = true →
        (schedule_unload ((c.update_timeout 0).1) s).unload_timer = none) ∧
    (∀ (c : Config) (s : GenState), s.auto_unload = true →
        c.unload_timeout ≤ 0 → (schedule_unload c s).unload_timer = none) := by
  have hsched : ∀ (c : Config) (s : GenState), s.auto_unload = true →
      c.unload_timeout ≤ 0 → (schedule_unload c s).unload_timer = none := by
    intro c s hau hle
    unfold schedule_unload
    rw [hau, if_neg (show ¬(true = false) by decide)]
    dsimp only
    rw [if_pos hle]
  refine ⟨?_, ?_, ?_, hsched⟩
  · intro c t ht
    unfold Config.update_timeout
    rw [if_pos ht]
  · intro c
    unfold Config.update_timeout
    rw [if_neg (by omega)]
    exact ⟨rfl, rfl⟩
  · intro c s hau
    refine hsched _ s hau ?_
    unfold Config.update_timeout
    rw [if_neg (by omega)]

/-- Witness for claim C8: update_timeout on -1 from the default
configuration raises and leaves the configuration as it was. -/
theorem claim8_timeout_update_witness :
    defaultConfig.update_timeout (-1) =
      (defaultConfig, .error (.valueError "Timeout must be non-negative")) :=
  claim8_timeout_update.1 defaultConfig (-1) (by norm_num)

/-- Claim C9: on a manager state with nothing loaded, no variant, no access
time and no pending timer, unload_model returns normally and the state is
exactly unchanged. -/
theorem claim9_unload_idempotent (s : GenState) (hlock : s.lock_held = false)
    (hp : s.pipeline = none) (hc : s.current_model_id = none)
    (hla : s.last_access = none) (ht : s.unload_timer = none) :
    unload_model s = .ok () s := by
  obtain ⟨p, au, mi, cmi, la, ut, lh⟩ := s
  dsimp only at hlock hp hc hla ht
  subst hlock hp hc hla ht
  rfl

/-- Witness for claim C9: unload on a freshly initialised generator is a
no-op. -/
theorem claim9_unload_idempotent_witness :
    unload_model (FluxGenerator.init defaultConfig true none) =
      .ok () (FluxGenerator.init defaultConfig true none) :=
  claim9_unload_idempotent (FluxGenerator.init defaultConfig true none)
    rfl rfl rfl rfl rfl

/-- Claim C10 counterexample: a generate_image invocation that switches
models never returns from call_tool at all (the generator deadlocks on its
own lock), so the handler does not return a content list for every
invocation. -/
theorem claim10_cex_call_tool_never_returns :
    call_tool engOk 200 0 stateFlux1Loaded defaultConfig "generate_image"
      argsSwitchToFlux2 = .deadlock := by
  decide

/-- Claim C10 as amended: every call_tool invocation that terminates returns
a non-empty content list and never propagates an exception: exceptions are
converted to a TextContent whose text begins with Error (shown for the
missing-prompt KeyError), and an unknown tool name yields the unknown-tool
Error text.  (The model-switch generate path never terminates.) -/
theorem claim10_call_tool_totality :
    (∀ (eng : Engine) (now : Time) (rand : Nat) (s : GenState) (cfg : Config)
        (name : String) (args : Arguments),
        (call_tool eng now rand s cfg name args).isExn = false) ∧
    (∀ (eng : Engine) (now : Time) (rand : Nat) (s : GenState) (cfg : Config)
        (name : String) (args : Arguments) (cs : List Content)
        (st : GenState × Config),
        call_tool eng now rand s cfg name args = .ok cs st → cs ≠ []) ∧
    (∀ (eng : Engine) (now : Time) (rand : Nat) (s : GenState) (cfg : Config)
        (name : String) (args : Arguments),
        name ≠ "generate_image" → name ≠ "unload_model" →
        name ≠ "get_status" → name ≠ "set_timeout" →
        call_tool eng now rand s cfg name args =
          .ok [Content.text ("Error: Unknown tool \x27" ++ name ++ "\x27")]
            (s, cfg)) ∧
    (∀ (eng : Engine) (now : Time) (rand : Nat) (s : GenState) (cfg : Config)
        (args : Arguments), args.prompt = none →
        call_tool eng now rand s cfg "generate_image" args =
          .ok [Content.text ("Error: " ++ "\x27prompt\x27")] (s, cfg)) := by
  refine ⟨call_tool_isExn_false, ?_, ?_, ?_⟩
  · intro eng now rand s cfg name args cs st h
    unfold call_tool at h
    cases hb : call_tool_body eng now rand s cfg name args with
    | ok cs1 st1 =>
      rw [hb] at h
      injection h with h1 h2
      exact h1 ▸ call_tool_body_ok_ne_nil hb
    | exn e st1 =>
      rw [hb] at h
      injection h with h1 h2
      rw [← h1]
      simp
    | deadlock =>
      rw [hb] at h
      exact absurd h (by simp)
  · intro eng now rand s cfg name args h1 h2 h3 h4
    unfold call_tool call_tool_body
    rw [if_neg h1, if_neg h2, if_neg h3, if_neg h4]
  · intro eng now rand s cfg args hp
    unfold call_tool call_tool_body
    rw [hp]
    rfl

/-- Witness for claim C10: the unknown-tool conjunct applied to a concrete
unknown name. -/
theorem claim10_call_tool_totality_witness :
    call_tool engOk 0 0 (FluxGenerator.init defaultConfig true none)
      defaultConfig "bogus_tool" argsEmpty =
      .ok [Content.text ("Error: Unknown tool \x27" ++ "bogus_tool" ++ "\x27")]
        (FluxGenerator.init defaultConfig true none, defaultConfig) :=
  claim10_call_tool_totality.2.2.1 engOk 0 0
    (FluxGenerator.init defaultConfig true none) defaultConfig "bogus_tool"
    argsEmpty (by decide) (by decide) (by decide) (by decide)

end FluxMcp
